import Mathlib

/-!
# Verification of the pyqlizator wire-protocol engine

Shallow embedding of `pyqlizator/connection.py`: the decoded msgpack object
model, the reply classifier / row builder (`_process_reply`, `_check_status`,
`_construct_row`), the receive cycle (`_recv`), command envelope construction
(`_command`, `execute`, `fetch`) and the chunked socket receive loop
(`Socket.recv`).  Decoded wire objects are modelled by the inductive `Value`;
Python exceptions by `PyExc`; the lazy generator pipeline by eager functions
returning the list of yielded rows together with an optional terminal
exception.
-/

namespace Pyqlizator

/-- A decoded msgpack object: integers, strings, nil, arrays and maps.
This is the universe of reply objects the classifier can receive. -/
inductive Value where
  | vint : Int → Value
  | vstr : String → Value
  | vnil : Value
  | arr : List Value → Value
  | map : List (Value × Value) → Value

/-- Python exceptions relevant to the pipeline.  `Error` is the repository's
exception class (carrying a status code, a message, and an optional wrapped
transport exception); `typeError` stands for Python's built-in `TypeError`
(raised e.g. when zipping over `None`, subscripting an integer, or using an
unhashable dict key). -/
inductive PyExc where
  | Error : Value → Value → Option String → PyExc
  | typeError : PyExc

/-- A result row: a Python dict, modelled as an insertion-ordered
association list. -/
abbrev Row := List (Value × Value)

/-- Python `==` between hashable values (the only values usable as dict
keys): structural on integers, strings and `None`; values of different
types compare unequal. -/
def keyEq : Value → Value → Bool
  | .vint a, .vint b => a == b
  | .vstr a, .vstr b => a == b
  | .vnil, .vnil => true
  | _, _ => false

/-- Whether a value may be used as a Python dict key: lists and dicts are
unhashable. -/
def hashable : Value → Bool
  | .arr _ => false
  | .map _ => false
  | _ => true

/-- Python `==` between a decoded value and an integer constant (used for
`status != self.OK`): integers compare numerically, all other decoded
shapes compare unequal to an integer. -/
def pyEqInt (v : Value) (n : Int) : Bool :=
  match v with
  | .vint m => m == n
  | _ => false

/-- Python `d.get(k)`: first binding of key `k` in a dict. -/
def dictGet (kvs : List (Value × Value)) (k : Value) : Option Value :=
  (kvs.find? (fun p => keyEq p.1 k)).map (fun p => p.2)

/-- Assignment `d[k] = v` on a Python dict: overwrite in place when the key exists,
append otherwise (insertion order preserved). -/
def dictInsert (kvs : List (Value × Value)) (k v : Value) : List (Value × Value) :=
  if kvs.any (fun p => keyEq p.1 k) then
    kvs.map (fun p => if keyEq p.1 k then (k, v) else p)
  else
    kvs ++ [(k, v)]

/-- Python truthiness of a decoded object (`if data:`): zero, empty string,
`None`, empty list and empty dict are falsy. -/
def pyTruthy : Value → Bool
  | .vint n => n != 0
  | .vstr s => s != ""
  | .vnil => false
  | .arr l => !l.isEmpty
  | .map kvs => !kvs.isEmpty

/-- Subscript `data[-1]`: last element of a sequence; `none` models the `TypeError`
(or `IndexError`) Python raises when the object does not support it. -/
def pyLast : Value → Option Value
  | .arr l => l.getLast?
  | .vstr s => match s.data.getLast? with
      | some c => some (.vstr (String.mk [c]))
      | none => none
  | _ => none

/-- Check `isinstance(v, (list, tuple))`: only decoded arrays qualify. -/
def isSeqVal : Value → Bool
  | .arr _ => true
  | _ => false

/-- Python iteration over a decoded object: arrays yield their elements,
strings their characters, dicts their keys; integers and `None` are not
iterable (`none` models the `TypeError`). -/
def pyIter : Value → Option (List Value)
  | .arr l => some l
  | .vstr s => some (s.data.map (fun c => .vstr (String.mk [c])))
  | .map kvs => some (kvs.map (fun p => p.1))
  | _ => none

/-- Tuple unpacking `(a, b) = v`: succeeds exactly on iterables of length two;
`none` models the `TypeError`/`ValueError` otherwise. -/
def unpack2 (v : Value) : Option (Value × Value) :=
  match pyIter v with
  | some [a, b] => some (a, b)
  | _ => none

namespace Connection

/-- Server reply status code `OK` (`Connection.OK`). -/
def OK : Int := 0

/-- Server reply status code `UNKNOWN_ERROR` (`Connection.UNKNOWN_ERROR`). -/
def UNKNOWN_ERROR : Int := 1

/-- Server command code `EXECUTE` (`Connection.EXECUTE`). -/
def EXECUTE : Int := 1

/-- Server command code `EXECUTE_AND_FETCH` (`Connection.EXECUTE_AND_FETCH`). -/
def EXECUTE_AND_FETCH : Int := 2

/-- Client-local error code `NETWORK_ERROR` (`Connection.NETWORK_ERROR`). -/
def NETWORK_ERROR : Int := 100

/-- Default error message used when a status reply carries no `message`
field (`Connection.DEFAULT_MESSAGE`). -/
def DEFAULT_MESSAGE : String := "Unknown error."

end Connection

/-- The decode registry (`Connection._from_primitive_converters`): maps a
column type name to a conversion function; `none` models a missing key.
The source's default registry is empty (`fun _ => none`). -/
abbrev DecodeReg := Value → Option (Value → Value)

/-- Function `Connection.from_primitive`: look the type name up in the decode
registry; on a missing key (`KeyError`) pass the value through unchanged.
The registry is a Python dict, so an unhashable type name (a decoded list
or dict) makes the subscript raise `TypeError`, which the `except KeyError`
handler does not catch. -/
def from_primitive (reg : DecodeReg) (value : Value) (typeName : Value) :
    Except PyExc Value :=
  if hashable typeName then
    match reg typeName with
    | none => .ok value
    | some fn => .ok (fn value)
  else
    .error .typeError

/-- Function `Connection._check_status`: read `status` (defaulting to
`UNKNOWN_ERROR`); when it differs from `OK` raise
`Error(status, message)` with `message` defaulting to `DEFAULT_MESSAGE`;
otherwise return `None` (no row).

The `Error` exception class lives in the repository's `exceptions` module,
which is absent from the sources at hand.  Modelled from the spec: errors
surface "as a single error kind carrying (code, message,
optional_wrapped_cause)", and the classifier "fails with a
ProtocolError(status_code, message)"; accordingly `self.Error(status,
message)` raises `PyExc.Error status message none`. -/
def check_status (data : List (Value × Value)) : Except PyExc (Option Row) :=
  let status := (dictGet data (.vstr "status")).getD (.vint Connection.UNKNOWN_ERROR)
  if pyEqInt status Connection.OK then
    .ok none
  else
    let message := (dictGet data (.vstr "message")).getD (.vstr Connection.DEFAULT_MESSAGE)
    .error (.Error status message none)

/-- Function `Connection._construct_row`: `zip(self._meta_info, data)` and build the
row dict, decoding each value by the column's declared type name.  A `none`
metadata (`self._meta_info is None`) is not iterable, so zipping it raises
`TypeError`; likewise a non-iterable `data`.  Each metadata element is
unpacked as `(col_name, col_type)`; the conversion's own `TypeError` (an
unhashable registry key) propagates first, then `row[col_name] = ...`
requires a hashable key. -/
def construct_row (reg : DecodeReg) (metaInfo : Option Value) (data : Value) :
    Except PyExc Row :=
  match metaInfo with
  | none => .error .typeError
  | some m =>
    match pyIter m with
    | none => .error .typeError
    | some cols =>
      match pyIter data with
      | none => .error .typeError
      | some vals =>
        (cols.zip vals).foldlM
          (fun row p =>
            match unpack2 p.1 with
            | none => .error .typeError
            | some (colName, colType) =>
              match from_primitive reg p.2 colType with
              | .error e => .error e
              | .ok v =>
                if hashable colName then
                  .ok (dictInsert row colName v)
                else
                  .error .typeError)
          []

/-- Function `Connection._process_reply`: a dict is checked as a status object; a
truthy object whose last element is a list/tuple is stored as the new
column metadata (producing no row); anything else is handed to
`_construct_row`.  Returns the (possibly updated) metadata state together
with the reply (`none` or a constructed row). -/
def process_reply (reg : DecodeReg) (metaInfo : Option Value) (data : Value) :
    Except PyExc (Option Value × Option Row) :=
  match data with
  | .map kvs => (check_status kvs).map (fun r => (metaInfo, r))
  | _ =>
    if pyTruthy data then
      match pyLast data with
      | none => .error .typeError
      | some lastElem =>
        if isSeqVal lastElem then
          .ok (some data, none)
        else
          (construct_row reg metaInfo data).map (fun r => (metaInfo, some r))
    else
      (construct_row reg metaInfo data).map (fun r => (metaInfo, some r))

/-- Connection state: whether the socket reference is still held
(`_socket is not None`), the per-command metadata (`_meta_info`), and the
immutable database name and path. -/
structure ConnState where
  sock : Bool
  metaInfo : Option Value
  dbname : String
  dbpath : String

/-- Property `Connection.closed`: true once the socket reference has been discarded. -/
def ConnState.closed (st : ConnState) : Bool := !st.sock

/-- The object-processing loop inside `Connection._recv`: fold
`_process_reply` over the decoded objects, yielding each truthy (non-empty)
reply dict; a raised exception stops the loop.  Returns the final metadata
state, the yielded rows, and the terminal exception if any. -/
def recvLoop (reg : DecodeReg) (metaInfo : Option Value) :
    List Value → Option Value × List Row × Option PyExc
  | [] => (metaInfo, [], none)
  | obj :: rest =>
    match process_reply reg metaInfo obj with
    | .error e => (metaInfo, [], some e)
    | .ok (meta2, reply) =>
      let r := recvLoop reg meta2 rest
      match reply with
      | some row =>
        if pyTruthy (.map row) then (r.1, row :: r.2.1, r.2.2)
        else (r.1, r.2.1, r.2.2)
      | none => (r.1, r.2.1, r.2.2)

/-- Function `Connection._recv`: reset `_meta_info` to `None`, then process the
decoded objects the transport delivers.  `netFail` models a transport
exception raised while pulling further chunks after `objs` (the objects
decoded before the failure); it is caught, the socket reference discarded,
and `Error(NETWORK_ERROR, str(exc), exc)` raised.  A non-transport
exception from processing propagates without touching the socket. -/
def recv (reg : DecodeReg) (st : ConnState) (objs : List Value)
    (netFail : Option String) : ConnState × List Row × Option PyExc :=
  let r := recvLoop reg none objs
  match r.2.2 with
  | some e => ({ st with metaInfo := r.1 }, r.2.1, some e)
  | none =>
    match netFail with
    | some exc =>
      ({ st with metaInfo := r.1, sock := false }, r.2.1,
        some (.Error (.vint Connection.NETWORK_ERROR) (.vstr exc) (some exc)))
    | none => ({ st with metaInfo := r.1 }, r.2.1, none)

/-- Function `Connection._send`: serialize and send the envelope; a transport
failure (`sendFail`) is caught, the socket reference discarded, and
`Error(NETWORK_ERROR, str(exc), exc)` raised. -/
def send (st : ConnState) (sendFail : Option String) :
    ConnState × Option PyExc :=
  match sendFail with
  | some exc =>
    ({ st with sock := false },
      some (.Error (.vint Connection.NETWORK_ERROR) (.vstr exc) (some exc)))
  | none => (st, none)

/-- The parameter unpacking in `Connection._command`:
`(params,) = parameters` keeps a single positional argument unchanged;
any other count raises `ValueError`, which is caught and replaced by the
empty tuple. -/
def commandParams : List Value → Value
  | [a] => a
  | _ => .arr []

/-- The `query` command envelope built by `Connection._command`, in the
source's key order. -/
def commandData (st : ConnState) (operation : Int) (sql : Value)
    (parameters : List Value) : Value :=
  .map [(.vstr "endpoint", .vstr "query"),
        (.vstr "operation", .vint operation),
        (.vstr "database", .vstr st.dbname),
        (.vstr "query", sql),
        (.vstr "parameters", commandParams parameters)]

/-- Outcome of a command round trip: the envelope that was sent, the final
connection state, the yielded rows and the terminal exception if any. -/
structure CommandResult where
  envelope : Value
  state : ConnState
  rows : List Row
  exc : Option PyExc

/-- Function `Connection._command`: build the envelope, `_send` it (a send failure
aborts before any receive), then `_recv` the reply objects. -/
def command (reg : DecodeReg) (st : ConnState) (operation : Int) (sql : Value)
    (parameters : List Value) (objs : List Value)
    (sendFail recvFail : Option String) : CommandResult :=
  let env := commandData st operation sql parameters
  match send st sendFail with
  | (st2, some e) => ⟨env, st2, [], some e⟩
  | (st2, none) =>
    let r := recv reg st2 objs recvFail
    ⟨env, r.1, r.2.1, r.2.2⟩

/-- Function `Connection.execute`: `_command` with operation `EXECUTE`. -/
def execute (reg : DecodeReg) (st : ConnState) (sql : Value)
    (parameters : List Value) (objs : List Value)
    (sendFail recvFail : Option String) : CommandResult :=
  command reg st Connection.EXECUTE sql parameters objs sendFail recvFail

/-- Function `Connection.fetch`: `_command` with operation `EXECUTE_AND_FETCH`. -/
def fetch (reg : DecodeReg) (st : ConnState) (sql : Value)
    (parameters : List Value) (objs : List Value)
    (sendFail recvFail : Option String) : CommandResult :=
  command reg st Connection.EXECUTE_AND_FETCH sql parameters objs sendFail recvFail

namespace Socket

/-- Function `Socket.recv`: repeatedly read a buffer of at most `bufSize` bytes from
the underlying socket (`reads` lists the successive results of
`self._sock.recv(buf_size)`); stop without yielding on an empty buffer
(peer close), otherwise yield the buffer and stop after it when it is
shorter than `bufSize`. -/
def recv (bufSize : Nat) : List (List Nat) → List (List Nat)
  | [] => []
  | buf :: rest =>
    if buf = [] then []
    else if buf.length < bufSize then [buf]
    else buf :: recv bufSize rest

end Socket

/-- The empty decode registry: the source's default
`_from_primitive_converters = {}`. -/
def emptyReg : DecodeReg := fun _ => none

/-- A fresh open connection for concrete evaluations. -/
def st0 : ConnState := ⟨true, none, "db", "/tmp/db"⟩

/-- Metadata shape as the spec words it: a non-empty sequence whose last
element is itself a sequence. -/
def isMetadataShape : Value → Bool
  | .arr l =>
    !l.isEmpty &&
      (match l.getLast? with
       | some (.arr _) => true
       | _ => false)
  | _ => false

/-- Reply classification as the spec states it (§4.3): a mapping is a
Status object; otherwise a non-empty sequence whose last element is itself
a sequence is a Metadata object (stored, no row); every other object is a
Row object, handed to row construction.  This is the spec-side definition
compared against `process_reply` in the classification claim. -/
def classifyReplySpec (reg : DecodeReg) (metaInfo : Option Value) (data : Value) :
    Except PyExc (Option Value × Option Row) :=
  match data with
  | .map kvs => (check_status kvs).map (fun r => (metaInfo, r))
  | _ =>
    if isMetadataShape data then
      .ok (some data, none)
    else
      (construct_row reg metaInfo data).map (fun r => (metaInfo, some r))

/-- The value `from_primitive` succeeds with on a hashable type name: the
registry conversion by declared type name, the value passed through
unchanged when the name is unregistered. -/
def decodeValue (reg : DecodeReg) (value : Value) (typeName : Value) : Value :=
  match reg typeName with
  | none => value
  | some fn => fn value

/-- On a hashable type name, `from_primitive` succeeds and returns the
registry conversion `decodeValue`. -/
theorem from_primitive_hashable (reg : DecodeReg) (value typeName : Value)
    (h : hashable typeName = true) :
    from_primitive reg value typeName = .ok (decodeValue reg value typeName) := by
  rw [from_primitive, if_pos h, decodeValue]
  cases reg typeName with
  | none => rfl
  | some fn => rfl

/-- Accessor for the `parameters` field of a command envelope. -/
def envParams (env : Value) : Option Value :=
  match env with
  | .map kvs => dictGet kvs (.vstr "parameters")
  | _ => none

/-- A value that Python fails to compare equal to an integer is not that
integer literal. -/
theorem pyEqInt_eq_false_of_ne (v : Value) (n : Int) (h : v ≠ .vint n) :
    pyEqInt v n = false := by
  cases v with
  | vint m =>
    simp only [pyEqInt, beq_eq_false_iff_ne, ne_eq]
    intro hmn
    exact h (by rw [hmn])
  | vstr s => rfl
  | vnil => rfl
  | arr l => rfl
  | map kvs => rfl

/-- Row construction fails with `TypeError` whenever the data object is not
iterable, regardless of the metadata state. -/
theorem construct_row_not_iterable (reg : DecodeReg) (metaInfo : Option Value)
    (data : Value) (h : pyIter data = none) :
    construct_row reg metaInfo data = .error .typeError := by
  cases metaInfo with
  | none => rfl
  | some m =>
    cases hm : pyIter m with
    | none => simp [construct_row, hm]
    | some cols => simp [construct_row, hm, h]

/-- C1: a decoded reply that is a mapping is treated as a status object:
its `status` field is read (defaulting to the `UNKNOWN_ERROR` code 1 when
absent) and, whenever that status is not the OK code 0, an `Error` carrying
that status code and the mapping's `message` field is raised, the message
defaulting to the placeholder `"Unknown error."` when absent; when the
status is the OK code, no row is produced. -/
theorem claim1_status_object_error (reg : DecodeReg) (metaInfo : Option Value)
    (kvs : List (Value × Value)) (status : Value)
    (hstatus : (dictGet kvs (.vstr "status")).getD (.vint Connection.UNKNOWN_ERROR)
      = status)
    (hne : status ≠ .vint Connection.OK) :
    process_reply reg metaInfo (.map kvs) =
      .error (.Error status
        ((dictGet kvs (.vstr "message")).getD (.vstr Connection.DEFAULT_MESSAGE))
        none) ∧
    ∀ kvs2 : List (Value × Value),
      (dictGet kvs2 (.vstr "status")).getD (.vint Connection.UNKNOWN_ERROR)
        = .vint Connection.OK →
      process_reply reg metaInfo (.map kvs2) = .ok (metaInfo, none) := by
  constructor
  · simp only [process_reply, check_status, hstatus,
      pyEqInt_eq_false_of_ne status Connection.OK hne, Bool.false_eq_true,
      if_false]
    rfl
  · intro kvs2 h2
    simp only [process_reply, check_status, h2]
    rfl

/-- Witness for C1: the reply `{status: 1}` (message absent) raises
`Error(1, "Unknown error.")`, and the reply `{status: 0}` produces no row. -/
theorem claim1_status_object_error_witness :
    process_reply emptyReg none (.map [(.vstr "status", .vint 1)]) =
      .error (.Error (.vint 1) (.vstr "Unknown error.") none) ∧
    process_reply emptyReg none (.map [(.vstr "status", .vint 0)]) =
      .ok (none, none) := by
  have h := claim1_status_object_error emptyReg none
    [(.vstr "status", .vint 1)] (.vint 1) rfl
    (by intro hc; injection hc with hv; exact absurd hv (by decide))
  exact ⟨h.1, h.2 [(.vstr "status", .vint 0)] rfl⟩

/-- C2: on the reply stream `[Metadata(["a:int","b:text"]), Row([1,"x"]),
Row([2,"y"]), Status(OK)]`, `fetch` yields exactly the two mappings
`{"a": 1, "b": "x"}` and `{"a": 2, "b": "y"}`, in that order, and raises
no error. -/
theorem claim2_fetch_two_rows :
    (fetch emptyReg st0 (.vstr "SELECT a, b FROM t") []
        [.arr [.arr [.vstr "a", .vstr "int"], .arr [.vstr "b", .vstr "text"]],
         .arr [.vint 1, .vstr "x"], .arr [.vint 2, .vstr "y"],
         .map [(.vstr "status", .vint 0)]] none none).rows =
      [[(.vstr "a", .vint 1), (.vstr "b", .vstr "x")],
       [(.vstr "a", .vint 2), (.vstr "b", .vstr "y")]] ∧
    (fetch emptyReg st0 (.vstr "SELECT a, b FROM t") []
        [.arr [.arr [.vstr "a", .vstr "int"], .arr [.vstr "b", .vstr "text"]],
         .arr [.vint 1, .vstr "x"], .arr [.vint 2, .vstr "y"],
         .map [(.vstr "status", .vint 0)]] none none).exc = none :=
  ⟨rfl, rfl⟩

/-- C3 counterexample: processing the reply stream `[Row([1])]` — a Row
object before any Metadata object — raises (`TypeError`, from zipping over
the unset metadata), contradicting the claim that it does not raise and
produces an empty mapping. -/
theorem claim3_row_before_metadata_counterexample :
    (recv emptyReg st0 [.arr [.vint 1]] none).2.2 = some PyExc.typeError ∧
    (recv emptyReg st0 [.arr [.vint 1]] none).2.2 ≠ none :=
  ⟨rfl, fun h => Option.noConfusion h⟩

/-- C3 amended: in a reply cycle in which a Row object is processed before
any Metadata object has been seen, processing the row raises a `TypeError`
(the unset metadata, Python `None`, is not iterable) and the cycle yields
no rows; no empty mapping is produced. -/
theorem claim3_row_before_metadata (reg : DecodeReg) (st : ConnState)
    (l rest : List Value) (nf : Option String)
    (h : ∀ v, l.getLast? = some v → isSeqVal v = false) :
    recv reg st (.arr l :: rest) nf =
      ({ st with metaInfo := none }, [], some PyExc.typeError) := by
  have hpr : process_reply reg none (.arr l) = .error .typeError := by
    cases l with
    | nil => rfl
    | cons a as =>
      obtain ⟨v, hv⟩ : ∃ v, (a :: as).getLast? = some v := by
        cases h2 : (a :: as).getLast? with
        | none => exact absurd (List.getLast?_eq_none_iff.mp h2) (by simp)
        | some v => exact ⟨v, rfl⟩
      have htr : pyTruthy (.arr (a :: as)) = true := by simp [pyTruthy]
      simp only [process_reply, htr, if_true, pyLast, hv, h v hv,
        Bool.false_eq_true, if_false]
      rfl
  simp only [recv, recvLoop, hpr]

/-- Witness for C3 amended: the single-object stream `[Row([1])]` raises
`TypeError` and yields no rows. -/
theorem claim3_row_before_metadata_witness :
    recv emptyReg st0 [.arr [.vint 1]] none =
      ({ st0 with metaInfo := none }, [], some PyExc.typeError) :=
  claim3_row_before_metadata emptyReg st0 [.vint 1] [] none
    (by intro v hv; cases hv; rfl)

/-- C4: the per-command metadata state is reset to unset at the start of
each `_recv` cycle: the outcome of a reply cycle — final state, yielded
rows and terminal exception — is identical whatever metadata a previous
command left in the connection state, so metadata from one command is
never used to construct rows for the next. -/
theorem claim4_metadata_reset (reg : DecodeReg) (st : ConnState)
    (m : Option Value) (objs : List Value) (nf : Option String) :
    recv reg { st with metaInfo := m } objs nf = recv reg st objs nf := by
  unfold recv
  cases (recvLoop reg none objs).2.2 with
  | some e => rfl
  | none => cases nf with
    | some exc => rfl
    | none => rfl

/-- C5: a transport failure during send or during receive raises an
`Error` whose code is `NETWORK_ERROR` (100) wrapping the underlying
transport exception, and leaves the connection closed (for the receive
side, provided the objects decoded before the failure raised no other
error, since an earlier raise stops the generator before the transport is
read again). -/
theorem claim5_transport_failure (reg : DecodeReg) (st : ConnState) (op : Int)
    (sql : Value) (ps objs : List Value) (e : String)
    (hok : (recvLoop reg none objs).2.2 = none) :
    ((command reg st op sql ps objs (some e) none).exc =
        some (.Error (.vint Connection.NETWORK_ERROR) (.vstr e) (some e)) ∧
      (command reg st op sql ps objs (some e) none).state.closed = true) ∧
    ((command reg st op sql ps objs none (some e)).exc =
        some (.Error (.vint Connection.NETWORK_ERROR) (.vstr e) (some e)) ∧
      (command reg st op sql ps objs none (some e)).state.closed = true) := by
  refine ⟨⟨rfl, rfl⟩, ?_, ?_⟩ <;>
    simp only [command, send, recv, hok, ConnState.closed, Bool.not_false]

/-- Witness for C5: with no reply objects and transport failure `"boom"`,
both the send side and the receive side raise `Error(100, "boom")` and
leave the connection closed. -/
theorem claim5_transport_failure_witness :
    ((command emptyReg st0 1 (.vstr "q") [] [] (some "boom") none).exc =
        some (.Error (.vint 100) (.vstr "boom") (some "boom")) ∧
      (command emptyReg st0 1 (.vstr "q") [] [] (some "boom") none).state.closed
        = true) ∧
    ((command emptyReg st0 1 (.vstr "q") [] [] none (some "boom")).exc =
        some (.Error (.vint 100) (.vstr "boom") (some "boom")) ∧
      (command emptyReg st0 1 (.vstr "q") [] [] none (some "boom")).state.closed
        = true) :=
  claim5_transport_failure emptyReg st0 1 (.vstr "q") [] [] "boom" rfl

/-- The fold at the heart of `_construct_row`, specialised to metadata made
of two-element `(name, type)` pairs with hashable names and type names: it
reduces to a plain fold of dict insertions over the truncating zip of
columns and values. -/
theorem construct_row_pairs_aux (reg : DecodeReg) (cols : List (Value × Value))
    (vals : List Value) (acc : Row)
    (h : ∀ p ∈ cols, hashable p.1 = true ∧ hashable p.2 = true) :
    ((cols.map (fun p => Value.arr [p.1, p.2])).zip vals).foldlM
        (fun row p =>
          match unpack2 p.1 with
          | none => Except.error PyExc.typeError
          | some (colName, colType) =>
            match from_primitive reg p.2 colType with
            | .error e => .error e
            | .ok v =>
              if hashable colName then
                Except.ok (dictInsert row colName v)
              else
                Except.error PyExc.typeError) acc =
      .ok ((cols.zip vals).foldl
        (fun row p => dictInsert row p.1.1 (decodeValue reg p.2 p.1.2)) acc) := by
  induction cols generalizing vals acc with
  | nil => rfl
  | cons c cs ih =>
    cases vals with
    | nil => rfl
    | cons v vs =>
      have hc : hashable c.1 = true := (h c (List.mem_cons_self _ _)).1
      have ht : hashable c.2 = true := (h c (List.mem_cons_self _ _)).2
      have hrest : ∀ p ∈ cs, hashable p.1 = true ∧ hashable p.2 = true :=
        fun p hp => h p (List.mem_cons_of_mem _ hp)
      simp only [List.map_cons, List.zip_cons_cons, List.foldlM_cons,
        unpack2, pyIter, from_primitive_hashable reg v c.2 ht, hc, if_true,
        List.foldl_cons]
      exact ih vs _ hrest

/-- C6: for metadata made of `(name, type)` pairs with hashable column
names and type names (as any real name or declared type, both strings,
is), row construction pairs column names with values positionally,
truncating to the shorter of the metadata and the row — the zip has length
`min` of the two — and converts each value through the decode registry
using the column's declared type name. -/
theorem claim6_row_construction (reg : DecodeReg) (cols : List (Value × Value))
    (vals : List Value)
    (h : ∀ p ∈ cols, hashable p.1 = true ∧ hashable p.2 = true) :
    construct_row reg (some (.arr (cols.map (fun p => .arr [p.1, p.2]))))
        (.arr vals) =
      .ok ((cols.zip vals).foldl
        (fun row p => dictInsert row p.1.1 (decodeValue reg p.2 p.1.2)) []) ∧
    (cols.zip vals).length = min cols.length vals.length := by
  constructor
  · simp only [construct_row, pyIter]
    exact construct_row_pairs_aux reg cols vals [] h
  · exact List.length_zip cols vals

/-- Witness for C6: metadata `[("a", "int")]` against the longer row
`[1, 2]` yields exactly `{"a": 1}` (the value 2 is dropped), and the zip
length is `min 1 2`. -/
theorem claim6_row_construction_witness :
    construct_row emptyReg (some (.arr [.arr [.vstr "a", .vstr "int"]]))
        (.arr [.vint 1, .vint 2]) = .ok [(.vstr "a", .vint 1)] ∧
    ([((Value.vstr "a"), Value.vstr "int")].zip [Value.vint 1, Value.vint 2]).length
      = min 1 2 := by
  have h := claim6_row_construction emptyReg [(.vstr "a", .vstr "int")]
    [.vint 1, .vint 2]
    (by intro p hp; rw [List.mem_singleton.mp hp]; exact ⟨rfl, rfl⟩)
  exact ⟨h.1, h.2⟩

/-- C7: reply classification is structural and mutually exclusive in a
fixed order — `process_reply` coincides with the spec-side classifier
`classifyReplySpec` on every decoded object: mappings are status objects,
non-empty sequences with a sequence last element are metadata (stored,
producing no row), and every other object is handed to row construction. -/
theorem claim7_classification (reg : DecodeReg) (metaInfo : Option Value)
    (data : Value) :
    process_reply reg metaInfo data = classifyReplySpec reg metaInfo data := by
  cases data with
  | map kvs => rfl
  | vnil => rfl
  | vint n =>
    by_cases hn : n = 0
    · subst hn; rfl
    · have h2 : construct_row reg metaInfo (.vint n) = .error .typeError :=
        construct_row_not_iterable reg metaInfo (.vint n) rfl
      have h1 : pyTruthy (.vint n) = true := by
        simp [pyTruthy, hn]
      simp [process_reply, classifyReplySpec, h1, isMetadataShape, h2, pyLast]
      rfl
  | vstr s =>
    by_cases hs : s = ""
    · subst hs; rfl
    · have hd : s.data ≠ [] := by
        intro h
        apply hs
        cases s
        simp_all
      obtain ⟨ch, hch⟩ : ∃ ch, s.data.getLast? = some ch := by
        cases h : s.data.getLast? with
        | none => exact absurd (List.getLast?_eq_none_iff.mp h) hd
        | some ch => exact ⟨ch, rfl⟩
      have h1 : pyTruthy (.vstr s) = true := by
        simp [pyTruthy, bne_iff_ne, hs]
      simp [process_reply, classifyReplySpec, h1, pyLast, hch, isSeqVal,
        isMetadataShape]
  | arr l =>
    cases l with
    | nil => rfl
    | cons a as =>
      obtain ⟨v, hv⟩ : ∃ v, (a :: as).getLast? = some v := by
        cases h2 : (a :: as).getLast? with
        | none => exact absurd (List.getLast?_eq_none_iff.mp h2) (by simp)
        | some v => exact ⟨v, rfl⟩
      have htr : pyTruthy (.arr (a :: as)) = true := by simp [pyTruthy]
      cases v with
      | arr l2 =>
        simp [process_reply, classifyReplySpec, htr, pyLast, hv, isSeqVal,
          isMetadataShape]
      | vint m =>
        simp [process_reply, classifyReplySpec, htr, pyLast, hv, isSeqVal,
          isMetadataShape]
      | vstr s2 =>
        simp [process_reply, classifyReplySpec, htr, pyLast, hv, isSeqVal,
          isMetadataShape]
      | vnil =>
        simp [process_reply, classifyReplySpec, htr, pyLast, hv, isSeqVal,
          isMetadataShape]
      | map kvs2 =>
        simp [process_reply, classifyReplySpec, htr, pyLast, hv, isSeqVal,
          isMetadataShape]

/-- Every chunk yielded by the socket receive loop is non-empty. -/
theorem socket_recv_ne_nil (bufSize : Nat) :
    ∀ (reads : List (List Nat)) (c : List Nat),
      c ∈ Socket.recv bufSize reads → c ≠ [] := by
  intro reads
  induction reads with
  | nil => intro c hc; simp [Socket.recv] at hc
  | cons buf rest ih =>
    intro c hc
    by_cases hb : buf = []
    · simp [Socket.recv, hb] at hc
    · by_cases hlen : buf.length < bufSize
      · simp [Socket.recv, hb, hlen] at hc
        rw [hc]; exact hb
      · simp only [Socket.recv, hb, if_neg, hlen, if_false] at hc
        rcases List.mem_cons.mp hc with h | h
        · rw [h]; exact hb
        · exact ih c h

/-- A chunk strictly shorter than the requested read size is the last chunk
the socket receive loop yields. -/
theorem socket_recv_short_last (bufSize : Nat) :
    ∀ (reads : List (List Nat)) (pre : List (List Nat)) (c : List Nat)
      (post : List (List Nat)),
      Socket.recv bufSize reads = pre ++ c :: post → c.length < bufSize →
      post = [] := by
  intro reads
  induction reads with
  | nil =>
    intro pre c post h _
    rw [Socket.recv] at h
    exact absurd h.symm (List.append_ne_nil_of_right_ne_nil pre (by simp))
  | cons buf rest ih =>
    intro pre c post h hlt
    by_cases hb : buf = []
    · rw [Socket.recv, if_pos hb] at h
      exact absurd h.symm (List.append_ne_nil_of_right_ne_nil pre (by simp))
    · by_cases hlen : buf.length < bufSize
      · rw [Socket.recv, if_neg hb, if_pos hlen] at h
        cases pre with
        | nil =>
          simp only [List.nil_append, List.cons.injEq] at h
          exact h.2.symm
        | cons p ps =>
          simp only [List.cons_append, List.cons.injEq] at h
          exact absurd h.2.symm
            (List.append_ne_nil_of_right_ne_nil ps (by simp))
      · rw [Socket.recv, if_neg hb, if_neg hlen] at h
        cases pre with
        | nil =>
          simp only [List.nil_append, List.cons.injEq] at h
          exact absurd (h.1 ▸ hlt) hlen
        | cons p ps =>
          simp only [List.cons_append, List.cons.injEq] at h
          exact ih ps c post h.2 hlt

/-- C8: the socket receive loop yields only non-empty byte chunks, yields
nothing when the next underlying read returns an empty buffer (peer
close), and terminates after yielding any chunk strictly shorter than the
requested read size. -/
theorem claim8_socket_chunks (bufSize : Nat) (reads : List (List Nat)) :
    (∀ c ∈ Socket.recv bufSize reads, c ≠ []) ∧
    (∀ rest : List (List Nat), reads = [] :: rest →
      Socket.recv bufSize reads = []) ∧
    (∀ (pre : List (List Nat)) (c : List Nat) (post : List (List Nat)),
      Socket.recv bufSize reads = pre ++ c :: post → c.length < bufSize →
      post = []) :=
  ⟨fun c hc => socket_recv_ne_nil bufSize reads c hc,
   fun _ h => by rw [h, Socket.recv, if_pos rfl],
   fun pre c post h hlt => socket_recv_short_last bufSize reads pre c post h hlt⟩

/-- Witness for C8: on the reads `[[1,2,3],[4,5]]` with requested size 3,
the yielded chunk `[4,5]` is non-empty and, being short, is last; an empty
first read yields nothing. -/
theorem claim8_socket_chunks_witness :
    ([4, 5] : List Nat) ≠ [] ∧
    Socket.recv 3 [[], [9]] = [] ∧
    ([] : List (List Nat)) = [] := by
  refine ⟨?_, ?_, ?_⟩
  · exact (claim8_socket_chunks 3 [[1, 2, 3], [4, 5]]).1 [4, 5]
      (by rw [show Socket.recv 3 [[1, 2, 3], [4, 5]] = [[1, 2, 3], [4, 5]] from rfl]
          exact List.mem_cons_of_mem _ (List.mem_cons_self _ _))
  · exact (claim8_socket_chunks 3 [[], [9]]).2.1 [[9]] rfl
  · exact (claim8_socket_chunks 3 [[1, 2, 3], [4, 5]]).2.2 [[1, 2, 3]] [4, 5] []
      rfl (by decide)

/-- The rows accumulated by the `_recv` processing loop are all non-empty:
a constructed row is yielded only when it passes the `if reply:`
truthiness test. -/
theorem recvLoop_rows_ne_nil (reg : DecodeReg) :
    ∀ (objs : List Value) (mi : Option Value) (row : Row),
      row ∈ (recvLoop reg mi objs).2.1 → row ≠ [] := by
  intro objs
  induction objs with
  | nil => intro mi row h; simp [recvLoop] at h
  | cons obj rest ih =>
    intro mi row h
    rw [recvLoop] at h
    cases hp : process_reply reg mi obj with
    | error e => rw [hp] at h; simp at h
    | ok pr =>
      rw [hp] at h
      obtain ⟨m2, reply⟩ := pr
      cases reply with
      | none => exact ih m2 row h
      | some r =>
        dsimp only at h
        by_cases hr : pyTruthy (.map r) = true
        · rw [if_pos hr] at h
          dsimp only at h
          rcases List.mem_cons.mp h with h1 | h1
          · subst h1
            intro hnil
            rw [hnil] at hr
            simp [pyTruthy] at hr
          · exact ih m2 row h1
        · rw [if_neg hr] at h
          exact ih m2 row h

/-- The rows a `_recv` cycle surfaces are exactly those of its processing
loop, whatever the terminal outcome. -/
theorem recv_rows_eq (reg : DecodeReg) (st : ConnState) (objs : List Value)
    (nf : Option String) :
    (recv reg st objs nf).2.1 = (recvLoop reg none objs).2.1 := by
  rcases hr : recvLoop reg none objs with ⟨m1, rows, exc⟩
  unfold recv
  rw [hr]
  cases exc with
  | some e => rfl
  | none => cases nf with
    | some s => rfl
    | none => rfl

/-- C9: the sequence of rows a reply cycle surfaces to the caller never
contains an empty mapping, and a Row object whose constructed mapping is
empty is silently dropped: the loop continues exactly as if the object had
produced nothing. -/
theorem claim9_no_empty_rows :
    (∀ (reg : DecodeReg) (st : ConnState) (objs : List Value)
        (nf : Option String) (row : Row),
      row ∈ (recv reg st objs nf).2.1 → row ≠ []) ∧
    (∀ (reg : DecodeReg) (mi : Option Value) (obj : Value) (rest : List Value)
        (m2 : Option Value),
      process_reply reg mi obj = .ok (m2, some []) →
      recvLoop reg mi (obj :: rest) = recvLoop reg m2 rest) := by
  constructor
  · intro reg st objs nf row h
    rw [recv_rows_eq] at h
    exact recvLoop_rows_ne_nil reg objs none row h
  · intro reg mi obj rest m2 hp
    rw [recvLoop, hp]
    rfl

/-- Witness for C9: the stream metadata-then-rows of C2 yields the
non-empty row `{"a": 1, "b": "x"}`, and an empty Row object after metadata
`[["a","int"]]` is dropped, the loop continuing unchanged. -/
theorem claim9_no_empty_rows_witness :
    ([(Value.vstr "a", Value.vint 1), (Value.vstr "b", Value.vstr "x")] : Row)
      ≠ [] ∧
    recvLoop emptyReg (some (.arr [.arr [.vstr "a", .vstr "int"]]))
        [.arr []] =
      recvLoop emptyReg (some (.arr [.arr [.vstr "a", .vstr "int"]])) [] := by
  constructor
  · exact claim9_no_empty_rows.1 emptyReg st0
      [.arr [.arr [.vstr "a", .vstr "int"], .arr [.vstr "b", .vstr "text"]],
       .arr [.vint 1, .vstr "x"], .map [(.vstr "status", .vint 0)]] none
      [(Value.vstr "a", Value.vint 1), (Value.vstr "b", Value.vstr "x")]
      (List.mem_cons_self _ _)
  · exact claim9_no_empty_rows.2 emptyReg
      (some (.arr [.arr [.vstr "a", .vstr "int"]])) (.arr []) []
      (some (.arr [.arr [.vstr "a", .vstr "int"]])) rfl

/-- C10: a call to `execute` or `fetch` with two or more positional
parameter arguments after the SQL text silently discards them — the
envelope's `parameters` field is the empty tuple — while a single such
argument is sent as the `parameters` value unchanged. -/
theorem claim10_parameter_unpacking (reg : DecodeReg) (st : ConnState)
    (sql : Value) (objs : List Value) (sf rf : Option String) (a b : Value)
    (rest : List Value) :
    envParams (execute reg st sql (a :: b :: rest) objs sf rf).envelope
      = some (.arr []) ∧
    envParams (fetch reg st sql (a :: b :: rest) objs sf rf).envelope
      = some (.arr []) ∧
    envParams (execute reg st sql [a] objs sf rf).envelope = some a ∧
    envParams (fetch reg st sql [a] objs sf rf).envelope = some a := by
  cases sf with
  | some e => exact ⟨rfl, rfl, rfl, rfl⟩
  | none => exact ⟨rfl, rfl, rfl, rfl⟩

end Pyqlizator
